import Mathlib

/-!
Verification of the AutoSentinels anomaly-classification engine and the
sequential multi-stage pipeline orchestrator.

The definitions below are a shallow embedding of
`backend/app/services/anomaly_detector.py`,
`backend/app/services/crew_orchestrator.py` and the ingestion entry point in
`backend/app/main.py`.  Python floats are modelled as rationals; telemetry
payload dictionaries are modelled as a structure with optional numeric
fields (a `none` field models an absent dictionary key); the injected
text-generation capability and the fault store are modelled as explicit
parameters carrying their outcomes.
-/

namespace AutoSentinels

/-- A telemetry payload, mirroring `TelemetryPayload` in
`backend/app/models/telemetry.py` after conversion to a dict inside
`AnomalyDetector.detect`.  Numeric fields are `Option`-valued: `none`
models a key absent from the payload dict.  The timestamp is kept as its
ISO-8601 string rendering, which is all the pipeline uses of it. -/
structure TelemetryPayload where
  vin : String
  timestamp : String
  coolant_temp_c : Option ℚ
  coolant_pressure_bar : Option ℚ
  engine_rpm : Option ℤ
  vibration_level : Option ℚ
  battery_voltage : Option ℚ
  odometer_km : Option ℚ
  ambient_temp_c : Option ℚ
deriving DecidableEq

/-- Result of anomaly detection, mirroring `AnomalyResult` in
`backend/app/services/anomaly_detector.py`. -/
structure AnomalyResult where
  is_anomaly : Bool
  component : Option String
  severity : Option String
  reason : Option String
  predicted_failure_km : Option ℚ
deriving DecidableEq

/-- Python `payload.get(key) or default` on a float field: an absent key
gives the default, and a present but falsy value (`0.0`) also gives the
default. -/
def getOrQ (v : Option ℚ) (d : ℚ) : ℚ :=
  match v with
  | none => d
  | some x => if x = 0 then d else x

/-- Python `int(payload.get(key) or default)` on the integer rpm field. -/
def getOrZ (v : Option ℤ) (d : ℤ) : ℤ :=
  match v with
  | none => d
  | some x => if x = 0 then d else x

/-- `coolant_temp = float(payload.get("coolant_temp_c") or 0.0)`. -/
def xCoolantTemp (p : TelemetryPayload) : ℚ := getOrQ p.coolant_temp_c 0

/-- `coolant_pressure = float(payload.get("coolant_pressure_bar") or 0.0)`. -/
def xCoolantPressure (p : TelemetryPayload) : ℚ := getOrQ p.coolant_pressure_bar 0

/-- `battery_voltage = float(payload.get("battery_voltage") or 12.5)`. -/
def xBatteryVoltage (p : TelemetryPayload) : ℚ := getOrQ p.battery_voltage (mkRat 25 2)

/-- `rpm = int(payload.get("engine_rpm") or 0)`. -/
def xRpm (p : TelemetryPayload) : ℤ := getOrZ p.engine_rpm 0

/-- `vibration = float(payload.get("vibration_level") or 0.0)`. -/
def xVibration (p : TelemetryPayload) : ℚ := getOrQ p.vibration_level 0

/-- `odometer = float(payload.get("odometer_km") or 0.0)`. -/
def xOdometer (p : TelemetryPayload) : ℚ := getOrQ p.odometer_km 0

/-- Rendering of a rational to one decimal place, modelling the Python
format specifier `:.1f` used in the reason strings (round to nearest
tenth). -/
def fmt1 (q : ℚ) : String :=
  let n : ℤ := Rat.floor (q * 10 + mkRat 1 2)
  let sign : String := if n < 0 then "-" else ""
  let a : ℕ := n.natAbs
  sign ++ toString (a / 10) ++ "." ++ toString (a % 10)

/-- `estimate_failure_km` helper inside `AnomalyDetector.detect`:
predicted failure distance is the odometer reading plus a
severity-indexed increment, with 8000.0 the default for severities not in
the table. -/
def estimate_failure_km (base_odometer : ℚ) (severity : String) : ℚ :=
  let inc : ℚ :=
    if severity = "critical" then 200
    else if severity = "high" then 1000
    else if severity = "medium" then 5000
    else if severity = "low" then 15000
    else 8000
  base_odometer + inc

/-- Rule 1 guard: `coolant_temp >= 120 or (coolant_temp >= 110 and
coolant_pressure >= 2.5)`. -/
def rule1Cond (p : TelemetryPayload) : Prop :=
  xCoolantTemp p ≥ 120 ∨ (xCoolantTemp p ≥ 110 ∧ xCoolantPressure p ≥ mkRat 5 2)

instance (p : TelemetryPayload) : Decidable (rule1Cond p) :=
  inferInstanceAs (Decidable (xCoolantTemp p ≥ 120 ∨ (xCoolantTemp p ≥ 110 ∧ xCoolantPressure p ≥ mkRat 5 2)))

/-- Rule 2 guard: `battery_voltage <= 11.3`. -/
def rule2Cond (p : TelemetryPayload) : Prop :=
  xBatteryVoltage p ≤ mkRat 113 10

instance (p : TelemetryPayload) : Decidable (rule2Cond p) :=
  inferInstanceAs (Decidable (xBatteryVoltage p ≤ mkRat 113 10))

/-- Rule 3 guard: `vibration >= 80 and rpm >= 2500`. -/
def rule3Cond (p : TelemetryPayload) : Prop :=
  xVibration p ≥ 80 ∧ xRpm p ≥ 2500

instance (p : TelemetryPayload) : Decidable (rule3Cond p) :=
  inferInstanceAs (Decidable (xVibration p ≥ 80 ∧ xRpm p ≥ 2500))

/-- Rule 4 guard: `vibration >= 60 and rpm < 2500`. -/
def rule4Cond (p : TelemetryPayload) : Prop :=
  xVibration p ≥ 60 ∧ xRpm p < 2500

instance (p : TelemetryPayload) : Decidable (rule4Cond p) :=
  inferInstanceAs (Decidable (xVibration p ≥ 60 ∧ xRpm p < 2500))

/-- Severity ladder of the coolant rule: critical at `>= 135`, high at
`>= 125`, else medium. -/
def coolantSeverity (t : ℚ) : String :=
  if t ≥ 135 then "critical" else if t ≥ 125 then "high" else "medium"

/-- Return value of rule 1 (coolant / overheating, component
`coolant_pump`), including its assembled reason string. -/
def rule1Result (p : TelemetryPayload) : AnomalyResult :=
  let t := xCoolantTemp p
  let pr := xCoolantPressure p
  let severity := coolantSeverity t
  let reason := String.intercalate " "
    (["Coolant temperature is high at " ++ fmt1 t ++ "°C"]
      ++ (if pr > 0 then ["with coolant pressure " ++ fmt1 pr ++ " bar"] else [])
      ++ ["indicating poor coolant circulation or a failing coolant pump."])
  ⟨true, some "coolant_pump", some severity, some reason,
    some (estimate_failure_km (xOdometer p) severity)⟩

/-- Severity ladder of the battery rule: high at `<= 10.5`, else medium. -/
def batterySeverity (v : ℚ) : String :=
  if v ≤ mkRat 21 2 then "high" else "medium"

/-- Return value of rule 2 (electrical / charging, component
`alternator`). -/
def rule2Result (p : TelemetryPayload) : AnomalyResult :=
  let v := xBatteryVoltage p
  let severity := batterySeverity v
  let reason := "Battery voltage is low at " ++ fmt1 v ++
    " V, which suggests a charging system or alternator problem."
  ⟨true, some "alternator", some severity, some reason,
    some (estimate_failure_km (xOdometer p) severity)⟩

/-- Return value of rule 3 (high vibration under load, component
`engine_misfire`): `severity = "medium" if vibration < 95 else "high"`. -/
def rule3Result (p : TelemetryPayload) : AnomalyResult :=
  let vib := xVibration p
  let severity := if vib < 95 then "medium" else "high"
  let reason := "Vibration level is high at " ++ fmt1 vib ++
    " while engine RPM is " ++ toString (xRpm p) ++
    ", indicating abnormal engine behaviour, likely an engine misfire under load."
  ⟨true, some "engine_misfire", some severity, some reason,
    some (estimate_failure_km (xOdometer p) severity)⟩

/-- Return value of rule 4 (mild vibration at moderate rpm, component
`sensor_failure`), always severity low. -/
def rule4Result (p : TelemetryPayload) : AnomalyResult :=
  let vib := xVibration p
  let severity := "low"
  let reason := "Vibration level is elevated at " ++ fmt1 vib ++
    " with moderate RPM (" ++ toString (xRpm p) ++
    "), which may indicate a sensor issue or minor imbalance rather than a major component failure."
  ⟨true, some "sensor_failure", some severity, some reason,
    some (estimate_failure_km (xOdometer p) severity)⟩

/-- `AnomalyDetector.detect`: the ordered rule cascade of
`backend/app/services/anomaly_detector.py`.  Rules are tried in order;
the first whose guard holds returns, and if none fires the result is
not-anomaly with every classification field absent. -/
def detect (p : TelemetryPayload) : AnomalyResult :=
  if rule1Cond p then rule1Result p
  else if rule2Cond p then rule2Result p
  else if rule3Cond p then rule3Result p
  else if rule4Cond p then rule4Result p
  else ⟨false, none, none, none, none⟩

/-- A numeric field is in range when, if present, it lies between the
declared pydantic bounds. -/
def optBetween (v : Option ℚ) (lo hi : ℚ) : Prop :=
  match v with
  | none => True
  | some x => lo ≤ x ∧ x ≤ hi

instance (v : Option ℚ) (lo hi : ℚ) : Decidable (optBetween v lo hi) :=
  match v with
  | none => isTrue trivial
  | some x => inferInstanceAs (Decidable (lo ≤ x ∧ x ≤ hi))

/-- Integer analogue of `optBetween`, for the rpm field. -/
def optBetweenZ (v : Option ℤ) (lo hi : ℤ) : Prop :=
  match v with
  | none => True
  | some x => lo ≤ x ∧ x ≤ hi

instance (v : Option ℤ) (lo hi : ℤ) : Decidable (optBetweenZ v lo hi) :=
  match v with
  | none => isTrue trivial
  | some x => inferInstanceAs (Decidable (lo ≤ x ∧ x ≤ hi))

/-- In-range sample: every supplied numeric field satisfies the bounds
declared on `TelemetryPayload` in `backend/app/models/telemetry.py`. -/
def InRange (p : TelemetryPayload) : Prop :=
  optBetween p.coolant_temp_c (-40) 200 ∧
  optBetween p.coolant_pressure_bar 0 5 ∧
  optBetweenZ p.engine_rpm 0 9000 ∧
  optBetween p.vibration_level 0 100 ∧
  optBetween p.battery_voltage 0 24 ∧
  (∀ x, p.odometer_km = some x → 0 ≤ x) ∧
  optBetween p.ambient_temp_c (-50) 70

instance (p : TelemetryPayload) : Decidable (InRange p) := by
  unfold InRange
  have : Decidable (∀ x, p.odometer_km = some x → 0 ≤ x) :=
    match h : p.odometer_km with
    | none => isTrue (fun x hx => by simp [h] at hx)
    | some y =>
      if hy : 0 ≤ y then
        isTrue (fun x hx => by cases hx; exact hy)
      else
        isFalse (fun hall => hy (hall y rfl))
  exact inferInstance

/-- Failure of the injected text-generation capability (an exception
raised inside `crew.kickoff`). -/
structure GenError where
  msg : String
deriving DecidableEq

/-- Failure of `FaultStore.save` (an exception raised by
`fault_repo.save_fault`). -/
structure PersistError where
  msg : String
deriving DecidableEq

/-- The flat prompt context assembled at the start of
`CrewOrchestrator.run_pipeline` from the payload and the anomaly
result. -/
structure PipelineContext where
  vin : String
  timestamp : String
  coolant_temp_c : Option ℚ
  coolant_pressure_bar : Option ℚ
  engine_rpm : Option ℤ
  vibration_level : Option ℚ
  battery_voltage : Option ℚ
  odometer_km : Option ℚ
  anomaly_reason : Option String
  predicted_failure_km : Option ℚ
  component : Option String
  severity : Option String
deriving DecidableEq

/-- Context assembly in `run_pipeline`: telemetry fields plus the
anomaly's reason, predicted distance, component and severity. -/
def buildContext (payload : TelemetryPayload) (anomaly : AnomalyResult) : PipelineContext :=
  ⟨payload.vin, payload.timestamp, payload.coolant_temp_c,
    payload.coolant_pressure_bar, payload.engine_rpm,
    payload.vibration_level, payload.battery_voltage, payload.odometer_km,
    anomaly.reason, anomaly.predicted_failure_km, anomaly.component,
    anomaly.severity⟩

/-- A persisted fault record, mirroring `FaultRecord` in
`backend/app/models/faults.py` with the context as its raw payload. -/
structure FaultRecord where
  id : String
  vin : String
  detected_at : String
  predicted_failure_km : ℚ
  component : String
  severity : String
  raw_payload : PipelineContext
deriving DecidableEq

/-- Python `opt or default` on an optional float: `None` and `0.0` are
falsy, anything else is kept (used for
`anomaly.predicted_failure_km or 200.0`). -/
def qOrDefault (v : Option ℚ) (d : ℚ) : ℚ :=
  match v with
  | none => d
  | some x => if x = 0 then d else x

/-- Python `opt or default` on an optional string: `None` and the empty
string are falsy (used for `anomaly.component or "unknown"` and
`anomaly.severity or "medium"`). -/
def sOrDefault (v : Option String) (d : String) : String :=
  match v with
  | none => d
  | some s => if s = "" then d else s

/-- The `FaultRecord(...)` construction inside `run_pipeline`: fresh id,
payload VIN, wall-clock detection time, and the anomaly's fields with
fallbacks 200.0 / "unknown" / "medium". -/
def mkFaultRecord (payload : TelemetryPayload) (anomaly : AnomalyResult)
    (fresh_id now : String) : FaultRecord :=
  ⟨fresh_id, payload.vin, now,
    qOrDefault anomaly.predicted_failure_km 200,
    sOrDefault anomaly.component "unknown",
    sOrDefault anomaly.severity "medium",
    buildContext payload anomaly⟩

/-- Modelled from the spec: sequential stage execution inside the external
crew process (`crew.kickoff` with `Process.sequential`), which is not part
of this repository.  Stages `start, start+1, ...` are invoked in order
against the injected text-generation capability `gen`; the first stage
failure aborts the remaining stages and surfaces as the error of the whole
run. -/
def runStages (gen : ℕ → Except GenError String) : ℕ → ℕ → Except GenError (List String)
  | _, 0 => Except.ok []
  | start, n + 1 =>
    match gen start with
    | Except.error e => Except.error e
    | Except.ok s =>
      match runStages gen (start + 1) n with
      | Except.error e => Except.error e
      | Except.ok rest => Except.ok (s :: rest)

/-- Modelled from the spec: `crew.kickoff` runs the five fixed stages
(summary, diagnosis, customer message, booking instruction, OEM insight)
sequentially. -/
def kickoff (gen : ℕ → Except GenError String) : Except GenError (List String) :=
  runStages gen 0 5

/-- Modelled from the spec: the single aggregated textual representation
of the five stage outputs (`str(crew_result)` in the source). -/
def crewOutput (outs : List String) : String :=
  String.intercalate "\n" outs

/-- The composite dict returned by `run_pipeline`: context, aggregated
crew output, and the id of the fault record. -/
structure RunResult where
  context : PipelineContext
  crew_output : String
  fault_id : String
deriving DecidableEq

/-- Observable outcome of one `run_pipeline` call: the value returned or
the exception propagated, whether `fault_repo.save_fault` was invoked and
with which record, and whether the save attempt failed (the swallowed
persistence exception). -/
structure PipelineOutcome where
  result : Except GenError RunResult
  saveCalled : Bool
  savedRecord : Option FaultRecord
  persistFailed : Bool

/-- `CrewOrchestrator.run_pipeline`: build the context, run the five
stages via the injected generation capability (re-raising any failure
before any persistence happens), then construct a `FaultRecord`, attempt
to save it — swallowing a save failure — and return the composite
result.  `saveOutcome` is the behaviour of the injected
`fault_repo.save_fault`; `fresh_id` is the generated unique id and `now`
the wall-clock detection time. -/
def run_pipeline (gen : ℕ → Except GenError String)
    (saveOutcome : Except PersistError Unit)
    (payload : TelemetryPayload) (anomaly : AnomalyResult)
    (fresh_id now : String) : PipelineOutcome :=
  let context := buildContext payload anomaly
  match kickoff gen with
  | Except.error e => ⟨Except.error e, false, none, false⟩
  | Except.ok outs =>
    let fault := mkFaultRecord payload anomaly fresh_id now
    let persistFailed := match saveOutcome with
      | Except.ok _ => false
      | Except.error _ => true
    ⟨Except.ok ⟨context, crewOutput outs, fault.id⟩, true, some fault, persistFailed⟩

/-- HTTP-level response of the ingestion endpoint, abstracted to its
three shapes. -/
inductive IngestResponse where
  | okNoAnomaly : IngestResponse
  | anomalyDetected (fault_id : String) (summary : PipelineContext)
      (crew_output : String) : IngestResponse
  | internalError : IngestResponse
deriving DecidableEq

/-- Observable outcome of one call to the ingestion entry point. -/
structure IngestOutcome where
  response : IngestResponse
  pipelineRan : Bool
  saveCalled : Bool
deriving DecidableEq

/-- `ingest_telemetry` in `backend/app/main.py` (the spec's
`classify_and_run`): run anomaly detection; when no anomaly is detected
return immediately without touching the orchestrator; otherwise run the
pipeline, turning a pipeline exception into an internal-error response
and a success into the anomaly-detected response. -/
def ingest_telemetry (gen : ℕ → Except GenError String)
    (saveOutcome : Except PersistError Unit)
    (fresh_id now : String) (payload : TelemetryPayload) : IngestOutcome :=
  let anomaly := detect payload
  if anomaly.is_anomaly = false then
    ⟨IngestResponse.okNoAnomaly, false, false⟩
  else
    let po := run_pipeline gen saveOutcome payload anomaly fresh_id now
    match po.result with
    | Except.error _ => ⟨IngestResponse.internalError, true, po.saveCalled⟩
    | Except.ok r =>
      ⟨IngestResponse.anomalyDetected r.fault_id r.context r.crew_output,
        true, po.saveCalled⟩

/-! ### Concrete samples and injected capabilities used as test inputs -/

/-- Sample satisfying the guards of rules 1, 2 and 3 simultaneously:
`coolant_temp_c=140, battery_voltage=10.0, vibration_level=90,
engine_rpm=3000`. -/
def exMulti : TelemetryPayload :=
  ⟨"VIN-MULTI", "2026-01-01T00:00:00", some 140, some 2, some 3000,
    some 90, some 10, some 10000, none⟩

/-- Boundary sample with `coolant_temp_c = 120.0`. -/
def exT120 : TelemetryPayload :=
  ⟨"VIN-T120", "2026-01-01T00:00:00", some 120, some 1, some 1500,
    some 10, some 13, some 10000, none⟩

/-- Boundary sample with `coolant_temp_c = 134.9`. -/
def exT1349 : TelemetryPayload :=
  ⟨"VIN-T1349", "2026-01-01T00:00:00", some (mkRat 1349 10), some 1, some 1500,
    some 10, some 13, some 10000, none⟩

/-- Boundary sample with `coolant_temp_c = 135.0`. -/
def exT135 : TelemetryPayload :=
  ⟨"VIN-T135", "2026-01-01T00:00:00", some 135, some 1, some 1500,
    some 10, some 13, some 10000, none⟩

/-- Sample with `battery_voltage = 11.4` and no other deviation. -/
def exB114 : TelemetryPayload :=
  ⟨"VIN-B114", "2026-01-01T00:00:00", some 90, some 1, some 1500,
    some 10, some (mkRat 57 5), some 1000, none⟩

/-- Sample with `battery_voltage = 11.3` and no other deviation. -/
def exB113 : TelemetryPayload :=
  ⟨"VIN-B113", "2026-01-01T00:00:00", some 90, some 1, some 1500,
    some 10, some (mkRat 113 10), some 1000, none⟩

/-- Sample with `battery_voltage = 10.5` and no other deviation. -/
def exB105 : TelemetryPayload :=
  ⟨"VIN-B105", "2026-01-01T00:00:00", some 90, some 1, some 1500,
    some 10, some (mkRat 21 2), some 1000, none⟩

/-- Sample with a supplied `battery_voltage = 0.0` (a dead battery) and
no other deviation. -/
def pBat0 : TelemetryPayload :=
  ⟨"VIN-BAT0", "2026-01-01T00:00:00", some 90, some 1, some 1500,
    some 10, some 0, some 1000, none⟩

/-- Sample with `odometer_km = 10000` on which the coolant rule fires at
severity high (`coolant_temp_c = 130`). -/
def exOdo : TelemetryPayload :=
  ⟨"VIN-ODO", "2026-01-01T00:00:00", some 130, some 1, some 1500,
    some 10, some 13, some 10000, none⟩

/-- Nominal mid-range sample: `coolant_temp_c=90, battery_voltage=13.0,
vibration_level=10, engine_rpm=1500`. -/
def exNominal : TelemetryPayload :=
  ⟨"VIN-NOMINAL", "2026-01-01T00:00:00", some 90, some 1, some 1500,
    some 10, some 13, some 1000, none⟩

/-- Sample in the vibration gap: `vibration_level = 70` with
`engine_rpm = 3000`, everything else nominal. -/
def exGap : TelemetryPayload :=
  ⟨"VIN-GAP", "2026-01-01T00:00:00", some 90, some 1, some 3000,
    some 70, some 13, some 1000, none⟩

/-- Copy of `exMulti` with a different VIN, timestamp and ambient
temperature but identical detector-relevant fields. -/
def exMultiAlt : TelemetryPayload :=
  ⟨"VIN-MULTI-ALT", "2027-06-15T12:34:56", some 140, some 2, some 3000,
    some 90, some 10, some 10000, some 20⟩

/-- An anomaly result whose `is_anomaly` flag is false and whose
classification fields are all absent. -/
def anomalyFalse : AnomalyResult := ⟨false, none, none, none, none⟩

/-- Injected generation capability whose every stage succeeds. -/
def genOkAll : ℕ → Except GenError String :=
  fun i => Except.ok ("stage output " ++ toString i)

/-- Injected generation capability that raises on the third stage
(index 2). -/
def genFailAt2 : ℕ → Except GenError String :=
  fun i => if i = 2 then Except.error ⟨"generation failed"⟩ else Except.ok "stage output"

/-! ### Helper lemmas -/

theorem getOrQ_some_zero (x : ℚ) : getOrQ (some x) 0 = x := by
  unfold getOrQ
  by_cases h : x = 0 <;> simp [h]

theorem getOrQ_some_pos (x d : ℚ) (h : 0 < x) : getOrQ (some x) d = x := by
  simp [getOrQ, h.ne']

theorem xCoolantTemp_some (p : TelemetryPayload) (t : ℚ)
    (h : p.coolant_temp_c = some t) : xCoolantTemp p = t := by
  unfold xCoolantTemp
  rw [h, getOrQ_some_zero]

theorem xCoolantPressure_some (p : TelemetryPayload) (x : ℚ)
    (h : p.coolant_pressure_bar = some x) : xCoolantPressure p = x := by
  unfold xCoolantPressure
  rw [h, getOrQ_some_zero]

theorem xVibration_some (p : TelemetryPayload) (x : ℚ)
    (h : p.vibration_level = some x) : xVibration p = x := by
  unfold xVibration
  rw [h, getOrQ_some_zero]

theorem xOdometer_some (p : TelemetryPayload) (x : ℚ)
    (h : p.odometer_km = some x) : xOdometer p = x := by
  unfold xOdometer
  rw [h, getOrQ_some_zero]

theorem xBatteryVoltage_some_pos (p : TelemetryPayload) (v : ℚ)
    (h : p.battery_voltage = some v) (hv : 0 < v) : xBatteryVoltage p = v := by
  unfold xBatteryVoltage
  rw [h]
  exact getOrQ_some_pos v (mkRat 25 2) hv

theorem xBatteryVoltage_none (p : TelemetryPayload)
    (h : p.battery_voltage = none) : xBatteryVoltage p = mkRat 25 2 := by
  unfold xBatteryVoltage
  rw [h]
  rfl

theorem xRpm_some_ne (p : TelemetryPayload) (r : ℤ)
    (h : p.engine_rpm = some r) (hr : r ≠ 0) : xRpm p = r := by
  unfold xRpm getOrZ
  rw [h]
  simp [hr]

theorem detect_of_rule1 (p : TelemetryPayload) (h : rule1Cond p) :
    detect p = rule1Result p := by
  unfold detect
  rw [if_pos h]

theorem detect_of_rule2 (p : TelemetryPayload) (h1 : ¬rule1Cond p)
    (h2 : rule2Cond p) : detect p = rule2Result p := by
  unfold detect
  rw [if_neg h1, if_pos h2]

theorem detect_of_rule3 (p : TelemetryPayload) (h1 : ¬rule1Cond p)
    (h2 : ¬rule2Cond p) (h3 : rule3Cond p) : detect p = rule3Result p := by
  unfold detect
  rw [if_neg h1, if_neg h2, if_pos h3]

theorem detect_of_rule4 (p : TelemetryPayload) (h1 : ¬rule1Cond p)
    (h2 : ¬rule2Cond p) (h3 : ¬rule3Cond p) (h4 : rule4Cond p) :
    detect p = rule4Result p := by
  unfold detect
  rw [if_neg h1, if_neg h2, if_neg h3, if_pos h4]

theorem detect_of_no_rule (p : TelemetryPayload) (h1 : ¬rule1Cond p)
    (h2 : ¬rule2Cond p) (h3 : ¬rule3Cond p) (h4 : ¬rule4Cond p) :
    detect p = ⟨false, none, none, none, none⟩ := by
  unfold detect
  rw [if_neg h1, if_neg h2, if_neg h3, if_neg h4]

theorem rule1Result_component (p : TelemetryPayload) :
    (rule1Result p).component = some "coolant_pump" := rfl

theorem rule1Result_severity (p : TelemetryPayload) :
    (rule1Result p).severity = some (coolantSeverity (xCoolantTemp p)) := rfl

theorem rule2Result_component (p : TelemetryPayload) :
    (rule2Result p).component = some "alternator" := rfl

theorem rule2Result_severity (p : TelemetryPayload) :
    (rule2Result p).severity = some (batterySeverity (xBatteryVoltage p)) := rfl

theorem rule3Result_component (p : TelemetryPayload) :
    (rule3Result p).component = some "engine_misfire" := rfl

theorem rule4Result_component (p : TelemetryPayload) :
    (rule4Result p).component = some "sensor_failure" := rfl

/-- The returned component is `coolant_pump` exactly when the coolant
rule's guard holds. -/
theorem detect_component_rule1_iff (p : TelemetryPayload) :
    (detect p).component = some "coolant_pump" ↔ rule1Cond p := by
  by_cases h1 : rule1Cond p
  · rw [detect_of_rule1 p h1, rule1Result_component]
    simp [h1]
  · constructor
    · intro h
      exfalso
      by_cases h2 : rule2Cond p
      · rw [detect_of_rule2 p h1 h2, rule2Result_component] at h
        exact absurd (Option.some.inj h) (by decide)
      · by_cases h3 : rule3Cond p
        · rw [detect_of_rule3 p h1 h2 h3, rule3Result_component] at h
          exact absurd (Option.some.inj h) (by decide)
        · by_cases h4 : rule4Cond p
          · rw [detect_of_rule4 p h1 h2 h3 h4, rule4Result_component] at h
            exact absurd (Option.some.inj h) (by decide)
          · rw [detect_of_no_rule p h1 h2 h3 h4] at h
            exact Option.noConfusion h
    · intro h
      exact absurd h h1

/-- When the coolant rule does not fire, the returned component is
`alternator` exactly when the battery rule's guard holds. -/
theorem detect_component_rule2_iff (p : TelemetryPayload) (h1 : ¬rule1Cond p) :
    (detect p).component = some "alternator" ↔ rule2Cond p := by
  by_cases h2 : rule2Cond p
  · rw [detect_of_rule2 p h1 h2, rule2Result_component]
    simp [h2]
  · constructor
    · intro h
      exfalso
      by_cases h3 : rule3Cond p
      · rw [detect_of_rule3 p h1 h2 h3, rule3Result_component] at h
        exact absurd (Option.some.inj h) (by decide)
      · by_cases h4 : rule4Cond p
        · rw [detect_of_rule4 p h1 h2 h3 h4, rule4Result_component] at h
          exact absurd (Option.some.inj h) (by decide)
        · rw [detect_of_no_rule p h1 h2 h3 h4] at h
          exact Option.noConfusion h
    · intro h
      exact absurd h h2

theorem runStages_succ (gen : ℕ → Except GenError String) (s n : ℕ) :
    runStages gen s (n + 1) =
      match gen s with
      | Except.error e => Except.error e
      | Except.ok t =>
        match runStages gen (s + 1) n with
        | Except.error e => Except.error e
        | Except.ok rest => Except.ok (t :: rest) := rfl

/-- If the stages before index `i` succeed and stage `i` fails, the whole
sequential run fails with that stage's error. -/
theorem runStages_error (gen : ℕ → Except GenError String) :
    ∀ (n s i : ℕ) (e : GenError), i < n →
      (∀ j, j < i → ∃ t, gen (s + j) = Except.ok t) →
      gen (s + i) = Except.error e →
      runStages gen s n = Except.error e := by
  intro n
  induction n with
  | zero =>
    intro s i e hi _ _
    exact absurd hi (Nat.not_lt_zero i)
  | succ n ih =>
    intro s i e hi hok he
    cases i with
    | zero =>
      rw [Nat.add_zero] at he
      rw [runStages_succ]
      simp only [he]
    | succ k =>
      obtain ⟨t, ht⟩ := hok 0 (Nat.succ_pos k)
      rw [Nat.add_zero] at ht
      have h2 : runStages gen (s + 1) n = Except.error e := by
        apply ih (s + 1) k e (Nat.lt_of_succ_lt_succ hi)
        · intro j hj
          obtain ⟨u, hu⟩ := hok (j + 1) (Nat.succ_lt_succ hj)
          refine ⟨u, ?_⟩
          rw [show s + 1 + j = s + (j + 1) by omega]
          exact hu
        · rw [show s + 1 + k = s + (k + 1) by omega]
          exact he
      rw [runStages_succ]
      simp only [ht, h2]

/-- `kickoff` fails with the error of the first failing stage among the
five, provided the earlier stages succeed. -/
theorem kickoff_error (gen : ℕ → Except GenError String) (i : ℕ) (e : GenError)
    (hi : i < 5) (hok : ∀ j, j < i → ∃ t, gen j = Except.ok t)
    (he : gen i = Except.error e) : kickoff gen = Except.error e := by
  unfold kickoff
  apply runStages_error gen 5 0 i e hi
  · intro j hj
    obtain ⟨t, ht⟩ := hok j hj
    refine ⟨t, ?_⟩
    rw [Nat.zero_add]
    exact ht
  · rw [Nat.zero_add]
    exact he

/-- Unfolding of `run_pipeline` when the crew run raises. -/
theorem run_pipeline_of_kickoff_error (gen : ℕ → Except GenError String)
    (saveOutcome : Except PersistError Unit) (p : TelemetryPayload)
    (a : AnomalyResult) (fid now : String) (e : GenError)
    (hk : kickoff gen = Except.error e) :
    run_pipeline gen saveOutcome p a fid now =
      ⟨Except.error e, false, none, false⟩ := by
  simp only [run_pipeline, hk]

/-- Unfolding of `run_pipeline` when all five stages succeed. -/
theorem run_pipeline_of_kickoff_ok (gen : ℕ → Except GenError String)
    (saveOutcome : Except PersistError Unit) (p : TelemetryPayload)
    (a : AnomalyResult) (fid now : String) (outs : List String)
    (hk : kickoff gen = Except.ok outs) :
    run_pipeline gen saveOutcome p a fid now =
      ⟨Except.ok ⟨buildContext p a, crewOutput outs, fid⟩, true,
        some (mkFaultRecord p a fid now),
        match saveOutcome with
        | Except.ok _ => false
        | Except.error _ => true⟩ := by
  simp only [run_pipeline, hk, mkFaultRecord]

/-! ### Claim theorems -/

/-- Claim C1: rule evaluation is first-match-wins with short-circuit —
when the coolant guard holds the result is `coolant_pump` no matter which
later guards also hold; when only later guards hold the earliest of them
wins; and the concrete multi-rule sample (coolant 140, battery 10.0,
vibration 90, rpm 3000) classifies as `coolant_pump`/critical. -/
theorem C1_first_match_wins :
    (∀ p : TelemetryPayload, InRange p → rule1Cond p →
      (detect p).is_anomaly = true ∧ (detect p).component = some "coolant_pump") ∧
    (∀ p : TelemetryPayload, InRange p → ¬rule1Cond p → rule2Cond p →
      (detect p).is_anomaly = true ∧ (detect p).component = some "alternator") ∧
    (∀ p : TelemetryPayload, InRange p → ¬rule1Cond p → ¬rule2Cond p → rule3Cond p →
      (detect p).is_anomaly = true ∧ (detect p).component = some "engine_misfire") ∧
    (rule1Cond exMulti ∧ rule2Cond exMulti ∧ rule3Cond exMulti ∧
      (detect exMulti).component = some "coolant_pump" ∧
      (detect exMulti).severity = some "critical") := by
  refine ⟨?_, ?_, ?_, by decide, by decide, by decide, by decide, by decide⟩
  · intro p _ h1
    rw [detect_of_rule1 p h1]
    exact ⟨rfl, rfl⟩
  · intro p _ h1 h2
    rw [detect_of_rule2 p h1 h2]
    exact ⟨rfl, rfl⟩
  · intro p _ h1 h2 h3
    rw [detect_of_rule3 p h1 h2 h3]
    exact ⟨rfl, rfl⟩

/-- Witness for C1 at the concrete multi-rule sample. -/
theorem C1_first_match_wins_witness :
    (detect exMulti).is_anomaly = true ∧
      (detect exMulti).component = some "coolant_pump" :=
  C1_first_match_wins.1 exMulti (by decide) (by decide)

/-- Claim C2: the coolant rule fires exactly when
`coolant_temp_c >= 120` or (`coolant_temp_c >= 110` and
`coolant_pressure_bar >= 2.5`), with severity critical at `>= 135`, high
at `>= 125`, else medium; boundaries: 120.0 → medium, 134.9 → high,
135.0 → critical. -/
theorem C2_coolant_rule :
    (∀ (p : TelemetryPayload) (t pr : ℚ), InRange p →
      p.coolant_temp_c = some t → p.coolant_pressure_bar = some pr →
      (((detect p).component = some "coolant_pump") ↔
        (t ≥ 120 ∨ (t ≥ 110 ∧ pr ≥ mkRat 5 2))) ∧
      ((t ≥ 120 ∨ (t ≥ 110 ∧ pr ≥ mkRat 5 2)) →
        (detect p).severity =
          some (if t ≥ 135 then "critical" else if t ≥ 125 then "high" else "medium"))) ∧
    ((detect exT120).component = some "coolant_pump" ∧
      (detect exT120).severity = some "medium") ∧
    (detect exT1349).severity = some "high" ∧
    (detect exT135).severity = some "critical" := by
  refine ⟨?_, ⟨by decide, by decide⟩, by decide, by decide⟩
  intro p t pr _ ht hpr
  have hT := xCoolantTemp_some p t ht
  have hP := xCoolantPressure_some p pr hpr
  have hcond : rule1Cond p ↔ (t ≥ 120 ∨ (t ≥ 110 ∧ pr ≥ mkRat 5 2)) := by
    unfold rule1Cond
    rw [hT, hP]
  constructor
  · rw [detect_component_rule1_iff]
    exact hcond
  · intro hfire
    have h1 : rule1Cond p := hcond.mpr hfire
    rw [detect_of_rule1 p h1, rule1Result_severity, hT]
    unfold coolantSeverity
    rfl

/-- Witness for C2 at the 120.0 boundary sample. -/
theorem C2_coolant_rule_witness :
    ((detect exT120).component = some "coolant_pump") ↔
      ((120:ℚ) ≥ 120 ∨ ((120:ℚ) ≥ 110 ∧ (1:ℚ) ≥ mkRat 5 2)) :=
  (C2_coolant_rule.1 exT120 120 1 (by decide) rfl rfl).1

/-- Claim C3 counterexample: the claim asserts the charging rule fires
for any supplied `battery_voltage` in `[0, 11.3]`, but a supplied value
of 0.0 is falsy in the extraction `payload.get("battery_voltage") or
12.5`, is replaced by the healthy default 12.5, and so does not fire the
rule — the sample with battery 0.0 and nominal other fields classifies
as no anomaly at all. -/
theorem C3_counterexample :
    pBat0.battery_voltage = some 0 ∧ ((0:ℚ) ≤ mkRat 113 10) ∧ InRange pBat0 ∧
    ¬rule1Cond pBat0 ∧ (detect pBat0).is_anomaly = false ∧
    ¬((detect pBat0).component = some "alternator") :=
  ⟨rfl, by decide, by decide, by decide, by decide, by decide⟩

/-- Claim C3 (amended): for every in-range sample on which the coolant
rule does not fire, the charging rule fires for a supplied positive
`battery_voltage` exactly when it is `<= 11.3`, with severity high at
`<= 10.5` and medium otherwise; a supplied 11.4 does not fire, a
supplied 0.0 is treated as missing, and a missing `battery_voltage`
defaults to 12.5 and does not fire. -/
theorem C3_charging_rule :
    (∀ (p : TelemetryPayload) (v : ℚ), InRange p → ¬rule1Cond p →
      p.battery_voltage = some v → 0 < v →
      (((detect p).component = some "alternator") ↔ v ≤ mkRat 113 10) ∧
      (v ≤ mkRat 113 10 →
        (detect p).severity = some (if v ≤ mkRat 21 2 then "high" else "medium"))) ∧
    (∀ p : TelemetryPayload, InRange p → ¬rule1Cond p → p.battery_voltage = none →
      ¬((detect p).component = some "alternator")) ∧
    (detect exB114).is_anomaly = false ∧
    ((detect exB113).component = some "alternator" ∧
      (detect exB113).severity = some "medium") ∧
    ((detect exB105).component = some "alternator" ∧
      (detect exB105).severity = some "high") := by
  refine ⟨?_, ?_, by decide, ⟨by decide, by decide⟩, by decide, by decide⟩
  · intro p v _ h1 hv hvpos
    have hB := xBatteryVoltage_some_pos p v hv hvpos
    have hcond : rule2Cond p ↔ v ≤ mkRat 113 10 := by
      unfold rule2Cond
      rw [hB]
    constructor
    · rw [detect_component_rule2_iff p h1]
      exact hcond
    · intro hle
      have h2 : rule2Cond p := hcond.mpr hle
      rw [detect_of_rule2 p h1 h2, rule2Result_severity, hB]
      unfold batterySeverity
      rfl
  · intro p _ h1 hnone
    rw [detect_component_rule2_iff p h1]
    unfold rule2Cond
    rw [xBatteryVoltage_none p hnone]
    decide

/-- Witness for the amended C3 at the 11.3 boundary sample. -/
theorem C3_charging_rule_witness :
    ((detect exB113).component = some "alternator") ↔ (mkRat 113 10 ≤ mkRat 113 10) :=
  (C3_charging_rule.1 exB113 (mkRat 113 10) (by decide) (by decide) rfl (by decide)).1

/-- Claim C4: whenever detection reports an anomaly, the predicted
failure distance is the extracted odometer reading plus the
severity-indexed increment (critical 200, high 1000, medium 5000, low
15000, any unmapped severity 8000); with odometer 10000 and the coolant
rule firing at severity high it is 11000.0. -/
theorem C4_predicted_failure_km :
    (∀ (p : TelemetryPayload) (s : String), (detect p).is_anomaly = true →
      (detect p).severity = some s →
      (detect p).predicted_failure_km = some (estimate_failure_km (xOdometer p) s)) ∧
    (∀ (b : ℚ) (s : String), s ≠ "critical" → s ≠ "high" → s ≠ "medium" → s ≠ "low" →
      estimate_failure_km b s = b + 8000) ∧
    (∀ b : ℚ, estimate_failure_km b "critical" = b + 200 ∧
      estimate_failure_km b "high" = b + 1000 ∧
      estimate_failure_km b "medium" = b + 5000 ∧
      estimate_failure_km b "low" = b + 15000) ∧
    ((detect exOdo).severity = some "high" ∧
      (detect exOdo).predicted_failure_km = some 11000) := by
  refine ⟨?_, ?_, ?_, by decide, ?_⟩
  · intro p s ha hs
    by_cases h1 : rule1Cond p
    · rw [detect_of_rule1 p h1] at hs ⊢
      rw [rule1Result_severity p] at hs
      obtain rfl := Option.some.inj hs
      rfl
    · by_cases h2 : rule2Cond p
      · rw [detect_of_rule2 p h1 h2] at hs ⊢
        rw [rule2Result_severity p] at hs
        obtain rfl := Option.some.inj hs
        rfl
      · by_cases h3 : rule3Cond p
        · rw [detect_of_rule3 p h1 h2 h3] at hs ⊢
          have hsev : (rule3Result p).severity =
              some (if xVibration p < 95 then "medium" else "high") := rfl
          rw [hsev] at hs
          obtain rfl := Option.some.inj hs
          rfl
        · by_cases h4 : rule4Cond p
          · rw [detect_of_rule4 p h1 h2 h3 h4] at hs ⊢
            have hsev : (rule4Result p).severity = some "low" := rfl
            rw [hsev] at hs
            obtain rfl := Option.some.inj hs
            rfl
          · rw [detect_of_no_rule p h1 h2 h3 h4] at ha
            exact absurd ha (by decide)
  · intro b s hc hh hm hl
    unfold estimate_failure_km
    simp [hc, hh, hm, hl]
  · intro b
    refine ⟨?_, ?_, ?_, ?_⟩ <;> rfl
  · rw [detect_of_rule1 exOdo (by decide)]
    show some (estimate_failure_km (xOdometer exOdo) (coolantSeverity (xCoolantTemp exOdo))) =
      some 11000
    have h1 : xOdometer exOdo = 10000 := by decide
    have h2 : coolantSeverity (xCoolantTemp exOdo) = "high" := by decide
    rw [h1, h2]
    unfold estimate_failure_km
    norm_num
    rw [if_neg (by decide : ¬("high" = "critical"))]
    norm_num

/-- Witness for C4 at the odometer-10000 sample. -/
theorem C4_predicted_failure_km_witness :
    (detect exOdo).predicted_failure_km =
      some (estimate_failure_km (xOdometer exOdo) "high") :=
  C4_predicted_failure_km.1 exOdo "high" (by decide) (by decide)

/-- Claim C5: if the text-generation capability raises at any of the
five stages (all earlier stages having succeeded), the pipeline run
propagates that error to its caller, the fault store's save is never
invoked and no fault record is constructed; moreover the outcome does
not depend on the generation capability beyond the failing stage, so the
remaining stages are never executed. -/
theorem C5_generation_failure :
    ∀ (gen gen' : ℕ → Except GenError String) (saveOutcome : Except PersistError Unit)
      (p : TelemetryPayload) (a : AnomalyResult) (fid now : String) (i : ℕ) (e : GenError),
      i < 5 → (∀ j, j < i → ∃ t, gen j = Except.ok t) → gen i = Except.error e →
      (∀ j, j ≤ i → gen' j = gen j) →
      (run_pipeline gen saveOutcome p a fid now).result = Except.error e ∧
      (run_pipeline gen saveOutcome p a fid now).saveCalled = false ∧
      (run_pipeline gen saveOutcome p a fid now).savedRecord = none ∧
      run_pipeline gen' saveOutcome p a fid now =
        run_pipeline gen saveOutcome p a fid now := by
  intro gen gen' saveOutcome p a fid now i e hi hok he hagree
  have hk : kickoff gen = Except.error e := kickoff_error gen i e hi hok he
  have hk' : kickoff gen' = Except.error e := by
    apply kickoff_error gen' i e hi
    · intro j hj
      obtain ⟨t, ht⟩ := hok j hj
      refine ⟨t, ?_⟩
      rw [hagree j (Nat.le_of_lt hj)]
      exact ht
    · rw [hagree i (Nat.le_refl i)]
      exact he
  rw [run_pipeline_of_kickoff_error gen saveOutcome p a fid now e hk,
    run_pipeline_of_kickoff_error gen' saveOutcome p a fid now e hk']
  exact ⟨rfl, rfl, rfl, rfl⟩

/-- Witness for C5: a capability failing at stage index 2. -/
theorem C5_generation_failure_witness :
    (run_pipeline genFailAt2 (Except.ok ()) exMulti (detect exMulti)
      "fid-5" "now-5").saveCalled = false :=
  (C5_generation_failure genFailAt2 genFailAt2 (Except.ok ()) exMulti (detect exMulti)
    "fid-5" "now-5" 2 ⟨"generation failed"⟩ (by decide)
    (fun j hj => ⟨"stage output", by interval_cases j <;> rfl⟩) rfl
    (fun _ _ => rfl)).2.1

/-- Claim C6: when all five stages succeed, a failing save does not
alter the returned composite result — the caller receives the same
context, aggregated output and fault id as when the save succeeds,
including the id of the very record whose persistence failed. -/
theorem C6_persistence_failure :
    ∀ (gen : ℕ → Except GenError String) (outs : List String)
      (saveOutcome : Except PersistError Unit) (p : TelemetryPayload)
      (a : AnomalyResult) (fid now : String) (pe : PersistError),
      kickoff gen = Except.ok outs →
      ((run_pipeline gen (Except.error pe) p a fid now).result =
        (run_pipeline gen saveOutcome p a fid now).result) ∧
      ((run_pipeline gen (Except.error pe) p a fid now).result =
        Except.ok ⟨buildContext p a, crewOutput outs, fid⟩) ∧
      ((run_pipeline gen (Except.error pe) p a fid now).savedRecord =
        some (mkFaultRecord p a fid now)) ∧
      (mkFaultRecord p a fid now).id = fid ∧
      (run_pipeline gen (Except.error pe) p a fid now).persistFailed = true := by
  intro gen outs saveOutcome p a fid now pe hk
  rw [run_pipeline_of_kickoff_ok gen (Except.error pe) p a fid now outs hk,
    run_pipeline_of_kickoff_ok gen saveOutcome p a fid now outs hk]
  exact ⟨rfl, rfl, rfl, rfl, rfl⟩

/-- Witness for C6: a failing store against a succeeding store. -/
theorem C6_persistence_failure_witness :
    (run_pipeline genOkAll (Except.error ⟨"db down"⟩) exMulti (detect exMulti)
        "fid-6" "now-6").result =
      (run_pipeline genOkAll (Except.ok ()) exMulti (detect exMulti)
        "fid-6" "now-6").result :=
  (C6_persistence_failure genOkAll
    ["stage output 0", "stage output 1", "stage output 2", "stage output 3",
      "stage output 4"]
    (Except.ok ()) exMulti (detect exMulti) "fid-6" "now-6" ⟨"db down"⟩ rfl).1

/-- Claim C7: when no rule fires on an in-range sample, detection
returns not-anomaly with every classification field absent, and the
ingestion entry point returns without triggering a pipeline run; in
particular for the nominal mid-range sample. -/
theorem C7_no_anomaly :
    (∀ (p : TelemetryPayload) (gen : ℕ → Except GenError String)
        (saveOutcome : Except PersistError Unit) (fid now : String), InRange p →
      ¬rule1Cond p → ¬rule2Cond p → ¬rule3Cond p → ¬rule4Cond p →
      detect p = ⟨false, none, none, none, none⟩ ∧
      ingest_telemetry gen saveOutcome fid now p =
        ⟨IngestResponse.okNoAnomaly, false, false⟩) ∧
    (detect exNominal = ⟨false, none, none, none, none⟩ ∧
      ∀ (gen : ℕ → Except GenError String) (saveOutcome : Except PersistError Unit)
        (fid now : String),
        (ingest_telemetry gen saveOutcome fid now exNominal).pipelineRan = false) := by
  constructor
  · intro p gen saveOutcome fid now _ h1 h2 h3 h4
    have hd := detect_of_no_rule p h1 h2 h3 h4
    refine ⟨hd, ?_⟩
    simp [ingest_telemetry, hd]
  · refine ⟨by decide, ?_⟩
    intro gen saveOutcome fid now
    have hd : detect exNominal = ⟨false, none, none, none, none⟩ := by decide
    simp [ingest_telemetry, hd]

/-- Witness for C7 at the nominal mid-range sample. -/
theorem C7_no_anomaly_witness :
    detect exNominal = ⟨false, none, none, none, none⟩ ∧
      ingest_telemetry genOkAll (Except.ok ()) "fid-7" "now-7" exNominal =
        ⟨IngestResponse.okNoAnomaly, false, false⟩ :=
  C7_no_anomaly.1 exNominal genOkAll (Except.ok ()) "fid-7" "now-7"
    (by decide) (by decide) (by decide) (by decide) (by decide)

/-- Claim C8: detection is a pure function of the six numeric inputs it
reads — two payloads agreeing on coolant temperature, coolant pressure,
engine rpm, vibration level, battery voltage and odometer produce
identical results (same flag, component, severity, reason string and
predicted distance), whatever their VIN, timestamp or ambient
temperature. -/
theorem C8_pure_function :
    ∀ p q : TelemetryPayload,
      p.coolant_temp_c = q.coolant_temp_c →
      p.coolant_pressure_bar = q.coolant_pressure_bar →
      p.engine_rpm = q.engine_rpm →
      p.vibration_level = q.vibration_level →
      p.battery_voltage = q.battery_voltage →
      p.odometer_km = q.odometer_km →
      detect p = detect q := by
  intro p q h1 h2 h3 h4 h5 h6
  cases p
  cases q
  simp only at h1 h2 h3 h4 h5 h6
  subst h1 h2 h3 h4 h5 h6
  rfl

/-- Witness for C8: two payloads differing only in VIN, timestamp and
ambient temperature classify identically. -/
theorem C8_pure_function_witness : detect exMulti = detect exMultiAlt :=
  C8_pure_function exMulti exMultiAlt rfl rfl rfl rfl rfl rfl

/-- Claim C9 counterexample: `run_pipeline` contains no assertion on
`classification.is_anomaly` — invoked with a classification whose flag
is false (all five stages succeeding), it executes the stages, persists
a fallback fault record (component "unknown", severity "medium") and
returns a successful composite result, instead of failing any
assertion. -/
theorem C9_counterexample :
    anomalyFalse.is_anomaly = false ∧
    (run_pipeline genOkAll (Except.ok ()) exNominal anomalyFalse
      "fid-9" "now-9").saveCalled = true ∧
    (run_pipeline genOkAll (Except.ok ()) exNominal anomalyFalse
      "fid-9" "now-9").savedRecord =
      some (mkFaultRecord exNominal anomalyFalse "fid-9" "now-9") ∧
    (mkFaultRecord exNominal anomalyFalse "fid-9" "now-9").component = "unknown" ∧
    (mkFaultRecord exNominal anomalyFalse "fid-9" "now-9").severity = "medium" ∧
    (run_pipeline genOkAll (Except.ok ()) exNominal anomalyFalse
      "fid-9" "now-9").result =
      Except.ok ⟨buildContext exNominal anomalyFalse,
        crewOutput ["stage output 0", "stage output 1", "stage output 2",
          "stage output 3", "stage output 4"], "fid-9"⟩ := by
  have hk : kickoff genOkAll = Except.ok ["stage output 0", "stage output 1",
      "stage output 2", "stage output 3", "stage output 4"] := rfl
  rw [run_pipeline_of_kickoff_ok genOkAll (Except.ok ()) exNominal anomalyFalse
    "fid-9" "now-9" _ hk]
  exact ⟨rfl, rfl, rfl, rfl, rfl, rfl⟩

/-- Claim C9 (amended): the orchestrator performs no check at all on the
`is_anomaly` flag — its behaviour is identical for flag true and flag
false, and with succeeding stages it persists the (fallback-filled)
fault record either way; the precondition is enforced solely by the
caller, which returns without invoking the orchestrator whenever
detection reports no anomaly. -/
theorem C9_no_assertion :
    (∀ (gen : ℕ → Except GenError String) (saveOutcome : Except PersistError Unit)
        (p : TelemetryPayload) (fid now : String) (c s r : Option String)
        (k : Option ℚ) (b b' : Bool),
      run_pipeline gen saveOutcome p ⟨b, c, s, r, k⟩ fid now =
        run_pipeline gen saveOutcome p ⟨b', c, s, r, k⟩ fid now) ∧
    (∀ (gen : ℕ → Except GenError String) (saveOutcome : Except PersistError Unit)
        (p : TelemetryPayload) (a : AnomalyResult) (fid now : String)
        (outs : List String),
      a.is_anomaly = false → kickoff gen = Except.ok outs →
      (run_pipeline gen saveOutcome p a fid now).saveCalled = true ∧
      (run_pipeline gen saveOutcome p a fid now).savedRecord =
        some (mkFaultRecord p a fid now)) ∧
    (∀ (gen : ℕ → Except GenError String) (saveOutcome : Except PersistError Unit)
        (fid now : String) (p : TelemetryPayload),
      (detect p).is_anomaly = false →
      (ingest_telemetry gen saveOutcome fid now p).pipelineRan = false) := by
  refine ⟨?_, ?_, ?_⟩
  · intro gen saveOutcome p fid now c s r k b b'
    rfl
  · intro gen saveOutcome p a fid now outs _ hk
    rw [run_pipeline_of_kickoff_ok gen saveOutcome p a fid now outs hk]
    exact ⟨rfl, rfl⟩
  · intro gen saveOutcome fid now p hd
    simp [ingest_telemetry, hd]

/-- Witness for the amended C9 at the nominal sample. -/
theorem C9_no_assertion_witness :
    (ingest_telemetry genOkAll (Except.ok ()) "fid-9w" "now-9w"
      exNominal).pipelineRan = false :=
  C9_no_assertion.2.2 genOkAll (Except.ok ()) "fid-9w" "now-9w" exNominal (by decide)

/-- Claim C10: the two vibration rules leave a gap — a supplied
vibration level in `[60, 80)` at a supplied rpm of at least 2500 fires
neither vibration rule (rule 3 needs vibration `>= 80`, rule 4 needs rpm
`< 2500`), so when the coolant and battery rules are also silent the
sample is classified as no anomaly. -/
theorem C10_vibration_gap :
    (∀ (p : TelemetryPayload) (v : ℚ) (r : ℤ), InRange p →
      ¬rule1Cond p → ¬rule2Cond p →
      p.vibration_level = some v → 60 ≤ v → v < 80 →
      p.engine_rpm = some r → 2500 ≤ r →
      detect p = ⟨false, none, none, none, none⟩) ∧
    detect exGap = ⟨false, none, none, none, none⟩ := by
  constructor
  · intro p v r _ h1 h2 hv hv60 hv80 hr hr2500
    have hV : xVibration p = v := xVibration_some p v hv
    have hR : xRpm p = r := xRpm_some_ne p r hr (by omega)
    have h3 : ¬rule3Cond p := by
      unfold rule3Cond
      rw [hV, hR]
      rintro ⟨hvib, -⟩
      exact absurd hvib (by linarith)
    have h4 : ¬rule4Cond p := by
      unfold rule4Cond
      rw [hV, hR]
      rintro ⟨-, hrpm⟩
      omega
    exact detect_of_no_rule p h1 h2 h3 h4
  · decide

/-- Witness for C10 at the vibration-70 / rpm-3000 sample. -/
theorem C10_vibration_gap_witness :
    detect exGap = ⟨false, none, none, none, none⟩ :=
  C10_vibration_gap.1 exGap 70 3000 (by decide) (by decide) (by decide)
    rfl (by decide) (by decide) rfl (by decide)

end AutoSentinels
